import Mathlib

/-!
Verification of the cross-service authentication/authorization gate of the
sleepr microservices repository, shallowly embedded in Lean 4.

The embedding follows the TypeScript source:
* `JwtAuthGuard.canActivate` (libs/common/src/auth/jwt-auth.guard.ts, the
  role-aware variant): credential extraction from cookies/headers with
  JavaScript `||` falsiness, the remote `authenticate` call, the OR-semantics
  role check, attachment of the verified user to the request, and the
  `catchError(() => of(false))` collapse of every failure to `false`.
* the gateway function `authContext` (gateway/auth.context.ts): calls the
  Authentication Client unconditionally with `req.headers?.authentication`.
* the `jwtFromRequest` extractor of `JwtStrategy` (auth app): cookie, then
  request-attached field, then header, else `null`.
* `UsersService.verifyUser` / `getUser` over `AbstractRepository.findOne`
  (throws NotFound when absent) and the `authenticate` message handler.
* `getCurrentUserByContext` (current-user decorator, HTTP + GraphQL paths)
  and the gateway `willSendRequest` user-header forwarding.

The remote call is modelled by a `VerifyOutcome` parameter (the observable
either errors — transport failure, timeout, or authority rejection — or
yields a user); `bcrypt.compare` is modelled by an opaque comparison
function parameter.
-/

namespace Sleepr

/-- A role entity as the guard consumes it: the role check of the guard reads
`role.name` on each element of the `roles` array of the user. -/
structure Role where
  name : String
deriving DecidableEq, Repr

/-- The `User` shape the guard receives from the `authenticate` call:
`roles` is optional (`roles?: Role[]`). -/
structure User where
  id : String
  email : String
  roles : Option (List Role)
deriving DecidableEq, Repr

/-- The request shape seen by `JwtAuthGuard` (`JwtRequest`): optional cookie
map, optional header map, optional attached user. Maps are association
lists. -/
structure JwtRequest where
  cookies : Option (List (String × String))
  headers : Option (List (String × String))
  user : Option User
deriving DecidableEq, Repr

/-- Field access on a string map: `m["k"]`, `none` when missing. -/
def lookupField (m : List (String × String)) (k : String) : Option String :=
  (m.find? (fun p => p.fst = k)).map Prod.snd

/-- Optional-chained field access `m?.k`. -/
def optLookup (m : Option (List (String × String))) (k : String) :
    Option String :=
  m.bind (fun mm => lookupField mm k)

/-- JavaScript `a || b` on string-or-undefined values: an empty string is
falsy and falls through to `b`. -/
def jsOrStr (a b : Option String) : Option String :=
  match a with
  | some s => if s = "" then b else some s
  | none => b

/-- JavaScript falsiness of a string-or-undefined value (`!jwt`). -/
def strFalsy : Option String → Bool
  | none => true
  | some s => s = ""

/-- `request.cookies?.Authentication || request.headers?.authentication`. -/
def extractedJwt (req : JwtRequest) : Option String :=
  jsOrStr (optLookup req.cookies "Authentication")
    (optLookup req.headers "authentication")

/-- Outcome of the remote `authenticate` observable as the guard sees it:
either a user, or an error (transport failure/timeout vs. an authority
rejection — both reach the guard as an errored observable). -/
inductive VerifyOutcome
  | ok (u : User)
  | transportErr
  | rejected
deriving DecidableEq, Repr

/-- `res.roles?.map((role) => role.name).includes(required)`: when `roles`
is absent the optional chain short-circuits to `undefined`, which is
falsy. -/
def roleNameMatch (uroles : Option (List Role)) (required : String) : Bool :=
  match uroles with
  | none => false
  | some rs => (rs.map Role.name).contains required

/-- The role condition of the guard: it throws (denies) when `roles` is defined
and `!roles.some(...)`; so access is allowed when no requirement is declared
or some required role name matches. -/
def rolesAllow (required : Option (List String)) (u : User) : Bool :=
  match required with
  | none => true
  | some rs => rs.any (fun r => roleNameMatch u.roles r)

/-- Result of `canActivate`: the boolean the observable resolves to, the
request after the guard ran (the `user` field may have been set), and
whether `authClient.send` was invoked. -/
structure GuardOutcome where
  allowed : Bool
  request : JwtRequest
  sentRemote : Bool
deriving DecidableEq, Repr

/-- `JwtAuthGuard.canActivate`: extract the credential; if falsy return
`false` without any remote call; otherwise send `authenticate` and pipe —
in `tap`, a declared-but-unmatched role requirement throws before
`request.user = res` is assigned; `catchError` maps any error (thrown role
denial, transport failure, authority rejection) to `of(false)`. -/
def canActivate (req : JwtRequest) (required : Option (List String))
    (verify : VerifyOutcome) : GuardOutcome :=
  let jwt := extractedJwt req
  if strFalsy jwt then ⟨false, req, false⟩
  else
    match verify with
    | .ok u =>
      if rolesAllow required u then ⟨true, { req with user := some u }, true⟩
      else ⟨false, req, true⟩
    | .transportErr => ⟨false, req, true⟩
    | .rejected => ⟨false, req, true⟩

/-- The request shape seen by the gateway function `authContext`. -/
structure AuthCtxRequest where
  headers : Option (List (String × String))
deriving DecidableEq, Repr

/-- Result of `authContext`: the produced context value or the thrown
`UnauthorizedException`, plus whether `authClient.send` was invoked. -/
structure AuthCtxOutcome where
  result : Except Unit User
  sentRemote : Bool
deriving Repr

/-- The gateway function `authContext`: it invokes `authClient.send` with
pattern `authenticate` and payload `{ Authentication:
req.headers?.authentication }` unconditionally — there is no
credential-presence check before the remote call. -/
def authContext (req : AuthCtxRequest)
    (verify : Option String → VerifyOutcome) : AuthCtxOutcome :=
  ⟨match verify (optLookup req.headers "authentication") with
   | .ok u => Except.ok u
   | .transportErr => Except.error ()
   | .rejected => Except.error (), true⟩

/-! ### The credential extractor of the auth app `JwtStrategy` -/

/-- A JavaScript value as the extractor inspects it: a string, some other
defined value (with its truthiness), or `undefined`. -/
inductive JsVal
  | str (s : String)
  | nonStr (truthy : Bool)
  | undef
deriving DecidableEq, Repr

/-- Models the check `typeof v` equals string. -/
def JsVal.isString : JsVal → Bool
  | .str _ => true
  | _ => false

/-- JavaScript truthiness (`if (v)`): a string is truthy iff non-empty. -/
def JsVal.truthy : JsVal → Bool
  | .str s => !(s = "")
  | .nonStr t => t
  | .undef => false

/-- The request as typed in the strategy (`AuthenticatedRequest`): the
cookie map entry `Authentication` and the request-attached `Authentication`
field are `unknown`, `headers` is always present (Express `Request`). -/
structure StratRequest where
  cookieAuth : JsVal
  reqAuth : JsVal
  headerAuth : JsVal
deriving DecidableEq, Repr

/-- The `jwtFromRequest` extractor: return the cookie token if it is a
string; else the request-attached token if it is a string; else the header
value if truthy (returned as-is via the `as string` cast); else `null`. -/
def jwtFromRequest (r : StratRequest) : Option JsVal :=
  match r.cookieAuth with
  | .str s => some (.str s)
  | _ =>
    match r.reqAuth with
    | .str s => some (.str s)
    | _ => if r.headerAuth.truthy then some r.headerAuth else none

/-! ### The authentication authority: user store, login, authenticate -/

/-- A stored user record, as `AbstractRepository.findOne` returns it: the
`password` column holds the bcrypt hash and is not stripped anywhere. -/
structure StoredUser where
  id : String
  email : String
  password : String
  roles : Option (List Role)
deriving DecidableEq, Repr

/-- The exception that escapes a failed login: the repository exception
`NotFoundException` for an unknown email, the service exception
`UnauthorizedException` with message Invalid credentials for a bad
password. -/
inductive LoginFailure
  | notFound
  | invalidCredentials
deriving DecidableEq, Repr

/-- `usersRepository.findOne({ email })` over an in-memory store:
`AbstractRepository.findOne` throws `NotFoundException` with message
Entity was not found when no entity matches. -/
def findOneByEmail (store : List StoredUser) (email : String) :
    Except LoginFailure StoredUser :=
  match store.find? (fun u => u.email = email) with
  | none => .error .notFound
  | some u => .ok u

/-- `UsersService.verifyUser(email, password)`: look the user up by email
(the repository NotFound propagates uncaught), then `bcrypt.compare`
(modelled by the `compare` parameter); on mismatch throw
`UnauthorizedException` with message Invalid credentials. -/
def verifyUser (compare : String → String → Bool) (store : List StoredUser)
    (email password : String) : Except LoginFailure StoredUser :=
  match findOneByEmail store email with
  | .error e => .error e
  | .ok u => if compare password u.password then .ok u
             else .error .invalidCredentials

/-- `usersRepository.findOne(getUserDto, { roles: true })` by id: the whole
entity, relations loaded, nothing projected away. -/
def getUser (store : List StoredUser) (uid : String) :
    Except Unit StoredUser :=
  match store.find? (fun u => u.id = uid) with
  | none => .error ()
  | some u => .ok u

/-- The payload of the signed token (`TokenPayload`). -/
structure TokenPayload where
  userId : String
deriving DecidableEq, Repr

/-- `JwtStrategy.validate({ userId })`: `usersService.getUser({ id: userId })`,
the full stored record. -/
def jwtStrategyValidate (store : List StoredUser) (p : TokenPayload) :
    Except Unit StoredUser :=
  getUser store p.userId

/-- `AuthController.authenticate(@Payload() data)`: returns `data.user`
unchanged — the user the strategy attached. -/
def authControllerAuthenticate (user : StoredUser) : StoredUser :=
  user

/-- The full `authenticate` message round: validate the token payload,
attach the user, return it to the remote guard. -/
def authenticateResult (store : List StoredUser) (p : TokenPayload) :
    Except Unit StoredUser :=
  (jwtStrategyValidate store p).map authControllerAuthenticate

/-! ### Gateway identity forwarding and the current-user accessor

`JSON.stringify`/`JSON.parse` of the JSON library are modelled as the
identity on a JSON value tree: the `user` header carries the JSON value the
gateway built from `context.user`, and the subgraph accessor returns the
parsed value. -/

/-- A JSON value, restricted to the shapes the forwarded user occupies. -/
inductive Json
  | str (s : String)
  | arr (xs : List Json)
  | obj (fields : List (String × Json))
  | null

/-- The user value that flows through the gateway: the mongo-variant
`UserDocument` shape `{ _id, email, roles?: string[] }`. -/
structure GqlUser where
  _id : String
  email : String
  roles : Option (List String)
deriving DecidableEq, Repr

/-- `JSON.stringify(context.user)` as a JSON value: `undefined` fields are
omitted, so an absent `roles` produces no `roles` key. -/
def encodeGqlUser (u : GqlUser) : Json :=
  Json.obj ([("_id", Json.str u._id), ("email", Json.str u.email)] ++
    (match u.roles with
     | none => []
     | some rs => [("roles", Json.arr (rs.map Json.str))]))

/-- Key lookup in a JSON object / header map. -/
def jsonLookup (fields : List (String × Json)) (k : String) : Option Json :=
  (fields.find? (fun p => p.fst = k)).map Prod.snd

/-- Read a JSON string. -/
def decodeStr : Json → Option String
  | .str s => some s
  | _ => none

/-- Read a JSON array of strings. -/
def decodeStrList : Json → Option (List String)
  | .arr xs =>
      xs.foldr
        (fun j acc =>
          match decodeStr j, acc with
          | some s, some l => some (s :: l)
          | _, _ => none)
        (some [])
  | _ => none

/-- Reading the forwarded JSON object back as the `UserDocument` the
subgraph code treats it as. -/
def decodeGqlUser : Json → Option GqlUser
  | .obj fields =>
    match jsonLookup fields "_id", jsonLookup fields "email" with
    | some i, some e =>
      match decodeStr i, decodeStr e with
      | some iv, some ev =>
        match jsonLookup fields "roles" with
        | none => some ⟨iv, ev, none⟩
        | some r => (decodeStrList r).map (fun rs => ⟨iv, ev, some rs⟩)
      | _, _ => none
    | _, _ => none
  | _ => none

/-- Models `headers.set` on the `user` key: replace any existing `user`
header. -/
def setUserHeader (headers : List (String × Json)) (v : Json) :
    List (String × Json) :=
  ("user", v) :: headers.filter (fun p => !(p.fst = "user"))

/-- The gateway hook `willSendRequest`: only when `request.http` exists and
`context.user` is truthy does it set the `user` header to
`JSON.stringify(context.user)`; otherwise the headers are untouched. -/
def willSendRequest (httpPresent : Bool) (ctxUser : Option GqlUser)
    (headers : List (String × Json)) : List (String × Json) :=
  if httpPresent then
    match ctxUser with
    | some u => setUserHeader headers (encodeGqlUser u)
    | none => headers
  else headers

/-- The execution context the current-user accessor receives: an HTTP
request (with its `user` slot, possibly never populated) or a GraphQL
context with the incoming subgraph headers. -/
inductive ExecCtx
  | http (requestUser : Option GqlUser)
  | graphql (reqHeaders : List (String × Json))

/-- What `getCurrentUserByContext` does: the HTTP branch returns
`request.user` as-is (possibly `undefined`); the GraphQL branch returns the
parsed `user` header, or throws an Error with message User not found in
context. -/
inductive CtxResult
  | value (u : Option GqlUser)
  | parsedValue (j : Json)
  | errorUserNotFound

/-- `getCurrentUserByContext` (graphql-variant current-user decorator):
when the context type is http, return `request.user` with no presence
check; otherwise read `graphqlContext?.req?.headers?.user`, throw when
falsy, else `JSON.parse` it. -/
def getCurrentUserByContext : ExecCtx → CtxResult
  | .http u => .value u
  | .graphql hs =>
    match jsonLookup hs "user" with
    | none => .errorUserNotFound
    | some j => .parsedValue j

/-! ## Theorems -/

/-- C1: an Identity is attached to the request context only if remote
verification succeeded and the declared role requirement (when any) passed;
whenever the request object changed at all, the guard allowed the request
and the change is exactly the attachment of the verified user — by
contraposition, on every failure path (no credential, verify error, timeout,
role denial) the request context is untouched. -/
theorem guard_attaches_identity_only_on_success
    (req : JwtRequest) (required : Option (List String))
    (verify : VerifyOutcome)
    (h : (canActivate req required verify).request ≠ req) :
    (canActivate req required verify).allowed = true ∧
    ∃ u, verify = VerifyOutcome.ok u ∧ rolesAllow required u = true ∧
      (canActivate req required verify).request = { req with user := some u } := by
  cases hf : strFalsy (extractedJwt req) with
  | true => simp [canActivate, hf] at h
  | false =>
    cases verify with
    | ok u =>
      cases hr : rolesAllow required u with
      | true => exact ⟨by simp [canActivate, hf, hr], u, rfl, hr,
          by simp [canActivate, hf, hr]⟩
      | false => simp [canActivate, hf, hr] at h
    | transportErr => simp [canActivate, hf] at h
    | rejected => simp [canActivate, hf] at h

/-- C1 witness: a request carrying a cookie credential, no role
requirement, and a successful verification attaches exactly the verified
user. -/
theorem guard_attaches_identity_only_on_success_witness :
    (canActivate ⟨some [("Authentication", "tok")], none, none⟩ none
      (VerifyOutcome.ok ⟨"1", "a@b.c", none⟩)).allowed = true ∧
    ∃ u, VerifyOutcome.ok (⟨"1", "a@b.c", none⟩ : User) = VerifyOutcome.ok u ∧
      rolesAllow none u = true ∧
      (canActivate ⟨some [("Authentication", "tok")], none, none⟩ none
        (VerifyOutcome.ok ⟨"1", "a@b.c", none⟩)).request =
        { (⟨some [("Authentication", "tok")], none, none⟩ : JwtRequest) with
            user := some u } :=
  guard_attaches_identity_only_on_success _ _ _ (by decide)

/-- C2 counterexample: a gateway request with no headers at all carries no
extractable credential, yet `authContext` still invokes the Authentication
Client (`sentRemote = true`) — the remote call is made, refuting the claim
that no remote call ever happens for credential-less requests. -/
theorem gateway_context_sends_without_credential :
    optLookup (AuthCtxRequest.mk none).headers "authentication" = none ∧
    (authContext ⟨none⟩ (fun _ => VerifyOutcome.rejected)).sentRemote = true := by
  exact ⟨rfl, rfl⟩

/-- C2 amended: the `JwtAuthGuard` itself denies a credential-less request
without invoking the Authentication Client, but the gateway function
`authContext` invokes the client on every request, credential or not. -/
theorem guard_denies_without_remote_call
    (req : JwtRequest) (required : Option (List String))
    (verify : VerifyOutcome)
    (h : strFalsy (extractedJwt req) = true) :
    canActivate req required verify = ⟨false, req, false⟩ ∧
    ∀ (greq : AuthCtxRequest) (gverify : Option String → VerifyOutcome),
      (authContext greq gverify).sentRemote = true := by
  exact ⟨by simp [canActivate, h], fun greq gverify => rfl⟩

/-- C2 witness: a request with neither cookies nor headers is denied with
no remote call. -/
theorem guard_denies_without_remote_call_witness :
    canActivate ⟨none, none, none⟩ none VerifyOutcome.rejected =
      ⟨false, ⟨none, none, none⟩, false⟩ ∧
    ∀ (greq : AuthCtxRequest) (gverify : Option String → VerifyOutcome),
      (authContext greq gverify).sentRemote = true :=
  guard_denies_without_remote_call ⟨none, none, none⟩ none
    VerifyOutcome.rejected (by decide)

/-- C3: with a verified identity and a declared requirement, the guard
allows iff some required role name occurs in the identity role set (OR
semantics); with no declared requirement every verified identity is
allowed. -/
theorem guard_role_check_or_semantics
    (req : JwtRequest) (rs : List String) (u : User)
    (h : strFalsy (extractedJwt req) = false) :
    ((canActivate req (some rs) (VerifyOutcome.ok u)).allowed = true ↔
      rs.any (fun r => roleNameMatch u.roles r) = true) ∧
    (canActivate req none (VerifyOutcome.ok u)).allowed = true := by
  constructor
  · cases hr : rs.any (fun r => roleNameMatch u.roles r) with
    | true => simp [canActivate, h, rolesAllow, hr]
    | false => simp [canActivate, h, rolesAllow, hr]
  · simp [canActivate, h, rolesAllow]

/-- C3 witness: an identity with role set containing only A is allowed
under the requirement [A, B], denied under [B, C], and allowed when no
requirement is declared. -/
theorem guard_role_check_or_semantics_witness :
    (canActivate ⟨some [("Authentication", "tok")], none, none⟩
      (some ["A", "B"])
      (VerifyOutcome.ok ⟨"1", "a@b.c", some [⟨"A"⟩]⟩)).allowed = true ∧
    (canActivate ⟨some [("Authentication", "tok")], none, none⟩
      (some ["B", "C"])
      (VerifyOutcome.ok ⟨"1", "a@b.c", some [⟨"A"⟩]⟩)).allowed = false ∧
    (canActivate ⟨some [("Authentication", "tok")], none, none⟩ none
      (VerifyOutcome.ok ⟨"1", "a@b.c", some [⟨"A"⟩]⟩)).allowed = true := by
  refine ⟨?_, by decide, by decide⟩
  exact ((guard_role_check_or_semantics
    ⟨some [("Authentication", "tok")], none, none⟩ ["A", "B"]
    ⟨"1", "a@b.c", some [⟨"A"⟩]⟩ (by decide)).1).mpr (by decide)

/-- C4: every failure kind — missing credential, transport failure or
timeout, authority rejection, insufficient role — makes `canActivate`
resolve to the single value `false` (the model is a total function, so no
fault escapes the guard), and the boolean result alone cannot reveal which
failure occurred. -/
theorem guard_failures_collapse_to_false
    (req : JwtRequest) (required : Option (List String))
    (rs : List String) (u : User) (verify : VerifyOutcome) :
    (strFalsy (extractedJwt req) = true →
      (canActivate req required verify).allowed = false) ∧
    (canActivate req required VerifyOutcome.transportErr).allowed = false ∧
    (canActivate req required VerifyOutcome.rejected).allowed = false ∧
    (rs.any (fun r => roleNameMatch u.roles r) = false →
      (canActivate req (some rs) (VerifyOutcome.ok u)).allowed = false) := by
  refine ⟨fun h => by simp [canActivate, h], ?_, ?_, fun h => ?_⟩
  · cases hf : strFalsy (extractedJwt req) <;> simp [canActivate, hf]
  · cases hf : strFalsy (extractedJwt req) <;> simp [canActivate, hf]
  · cases hf : strFalsy (extractedJwt req) <;>
      simp [canActivate, hf, rolesAllow, h]

/-- C4 witness: the four failure kinds evaluated at concrete requests each
yield the same denial value `false`. -/
theorem guard_failures_collapse_to_false_witness :
    (canActivate ⟨none, none, none⟩ none VerifyOutcome.rejected).allowed
      = false ∧
    (canActivate ⟨some [("Authentication", "tok")], none, none⟩ none
      VerifyOutcome.transportErr).allowed = false ∧
    (canActivate ⟨some [("Authentication", "tok")], none, none⟩ none
      VerifyOutcome.rejected).allowed = false ∧
    (canActivate ⟨some [("Authentication", "tok")], none, none⟩
      (some ["admin"])
      (VerifyOutcome.ok ⟨"1", "a@b.c", none⟩)).allowed = false :=
  ⟨(guard_failures_collapse_to_false ⟨none, none, none⟩ none ["admin"]
      ⟨"1", "a@b.c", none⟩ VerifyOutcome.rejected).1 (by decide),
   (guard_failures_collapse_to_false
      ⟨some [("Authentication", "tok")], none, none⟩ none ["admin"]
      ⟨"1", "a@b.c", none⟩ VerifyOutcome.rejected).2.1,
   (guard_failures_collapse_to_false
      ⟨some [("Authentication", "tok")], none, none⟩ none ["admin"]
      ⟨"1", "a@b.c", none⟩ VerifyOutcome.rejected).2.2.1,
   (guard_failures_collapse_to_false
      ⟨some [("Authentication", "tok")], none, none⟩ none ["admin"]
      ⟨"1", "a@b.c", none⟩ VerifyOutcome.rejected).2.2.2 (by decide)⟩

/-- C10: an identity whose `roles` field is absent never crashes the role
check — the optional chain short-circuits to a falsy value — and any
declared non-empty requirement denies the request. -/
theorem guard_total_on_absent_roles
    (req : JwtRequest) (rs : List String) (i e : String)
    (h : strFalsy (extractedJwt req) = false) (_hne : rs ≠ []) :
    (canActivate req (some rs)
      (VerifyOutcome.ok ⟨i, e, none⟩)).allowed = false := by
  simp [canActivate, h, rolesAllow, roleNameMatch]

/-- C10 witness: a verified identity with no `roles` field under the
requirement [admin] is denied. -/
theorem guard_total_on_absent_roles_witness :
    (canActivate ⟨some [("Authentication", "tok")], none, none⟩
      (some ["admin"])
      (VerifyOutcome.ok ⟨"1", "a@b.c", none⟩)).allowed = false :=
  guard_total_on_absent_roles ⟨some [("Authentication", "tok")], none, none⟩
    ["admin"] "1" "a@b.c" (by decide) (by decide)

/-- C5 counterexample: with a one-user store and the comparison modelling
`bcrypt.compare`, an unknown email fails with the NotFound denial while a
known email with a wrong password fails with the invalid-credentials
denial — two distinct outcomes, so the failure causes are observationally
distinguishable, refuting the claim that the denial is the same in both
cases. -/
theorem login_failure_causes_distinguishable :
    verifyUser (fun p h => h == "hash:" ++ p)
      [⟨"1", "test@test.com", "hash:secret", none⟩]
      "unknown@test.com" "secret" = Except.error LoginFailure.notFound ∧
    verifyUser (fun p h => h == "hash:" ++ p)
      [⟨"1", "test@test.com", "hash:secret", none⟩]
      "test@test.com" "wrong" = Except.error LoginFailure.invalidCredentials ∧
    LoginFailure.notFound ≠ LoginFailure.invalidCredentials :=
  ⟨rfl, rfl, by decide⟩

/-- C5 amended: on an unknown email the repository NotFound denial
propagates out of `verifyUser`; on a known email with a non-matching
password `verifyUser` fails with the invalid-credentials denial — the two
failure causes yield distinct denials. -/
theorem login_unknown_email_vs_wrong_password
    (compare : String → String → Bool) (store : List StoredUser)
    (email pw : String) :
    (findOneByEmail store email = Except.error LoginFailure.notFound →
      verifyUser compare store email pw = Except.error LoginFailure.notFound) ∧
    (∀ u, findOneByEmail store email = Except.ok u →
      compare pw u.password = false →
      verifyUser compare store email pw =
        Except.error LoginFailure.invalidCredentials) := by
  constructor
  · intro h
    simp [verifyUser, h]
  · intro u h hcmp
    simp [verifyUser, h, hcmp]

/-- C5 witness: both branches of the amended statement evaluated on a
concrete store. -/
theorem login_unknown_email_vs_wrong_password_witness :
    verifyUser (fun p h => h == "hash:" ++ p)
      [⟨"1", "test@test.com", "hash:secret", none⟩]
      "nobody@test.com" "secret" = Except.error LoginFailure.notFound ∧
    verifyUser (fun p h => h == "hash:" ++ p)
      [⟨"1", "test@test.com", "hash:secret", none⟩]
      "test@test.com" "bad" = Except.error LoginFailure.invalidCredentials :=
  ⟨(login_unknown_email_vs_wrong_password (fun p h => h == "hash:" ++ p)
      [⟨"1", "test@test.com", "hash:secret", none⟩]
      "nobody@test.com" "secret").1 rfl,
   (login_unknown_email_vs_wrong_password (fun p h => h == "hash:" ++ p)
      [⟨"1", "test@test.com", "hash:secret", none⟩]
      "test@test.com" "bad").2 ⟨"1", "test@test.com", "hash:secret", none⟩
      rfl rfl⟩

/-- C6 counterexample: the `authenticate` round for a stored user returns
the stored record itself, whose `password` field still holds the stored
bcrypt hash — the Identity handed back to the Guard contains the password
hash, refuting the claim that it consists only of id, email and roles. -/
theorem authenticate_response_contains_password_hash :
    authenticateResult [⟨"1", "test@test.com", "$2b$10$storedhash", none⟩]
      ⟨"1"⟩ = Except.ok ⟨"1", "test@test.com", "$2b$10$storedhash", none⟩ ∧
    (⟨"1", "test@test.com", "$2b$10$storedhash", none⟩ : StoredUser).password
      = "$2b$10$storedhash" :=
  ⟨rfl, rfl⟩

/-- C6 amended: a successful `authenticate` returns the full stored user
record unmodified — id, email and roles are present, but the stored
password hash field is not stripped, so it travels to the Guard and into
the request context. -/
theorem authenticate_returns_full_stored_record
    (store : List StoredUser) (p : TokenPayload) (u : StoredUser)
    (h : authenticateResult store p = Except.ok u) :
    u ∈ store ∧ u.id = p.userId := by
  unfold authenticateResult jwtStrategyValidate getUser at h
  cases hf : store.find? (fun su => su.id = p.userId) with
  | none => simp [hf, Except.map] at h
  | some su =>
    simp [hf, Except.map, authControllerAuthenticate] at h
    subst h
    exact ⟨List.mem_of_find?_eq_some hf,
      by simpa using List.find?_some hf⟩

/-- C6 witness: the amended statement applied to a one-user store. -/
theorem authenticate_returns_full_stored_record_witness :
    (⟨"1", "test@test.com", "$2b$10$storedhash", none⟩ : StoredUser) ∈
      [(⟨"1", "test@test.com", "$2b$10$storedhash", none⟩ : StoredUser)] ∧
    (⟨"1", "test@test.com", "$2b$10$storedhash", none⟩ : StoredUser).id
      = (⟨"1"⟩ : TokenPayload).userId :=
  authenticate_returns_full_stored_record
    [⟨"1", "test@test.com", "$2b$10$storedhash", none⟩] ⟨"1"⟩
    ⟨"1", "test@test.com", "$2b$10$storedhash", none⟩ rfl

/-- C7: the strategy extractor honours the precedence cookie, then
request-attached field, then header, and returns `null` — never a fault —
when none matches: stated per step, with each earlier step known not to be
a string (and the header known falsy for the absent case). -/
theorem jwt_extractor_precedence (r : StratRequest) :
    (∀ s, r.cookieAuth = JsVal.str s → jwtFromRequest r = some (JsVal.str s)) ∧
    (r.cookieAuth.isString = false →
      ∀ s, r.reqAuth = JsVal.str s → jwtFromRequest r = some (JsVal.str s)) ∧
    (r.cookieAuth.isString = false → r.reqAuth.isString = false →
      r.headerAuth.truthy = true → jwtFromRequest r = some r.headerAuth) ∧
    (r.cookieAuth.isString = false → r.reqAuth.isString = false →
      r.headerAuth.truthy = false → jwtFromRequest r = none) := by
  obtain ⟨c, q, hd⟩ := r
  refine ⟨fun s hc => ?_, fun hc s hq => ?_, fun hc hq ht => ?_,
    fun hc hq ht => ?_⟩
  · subst hc; rfl
  · subst hq
    cases c <;> simp_all [jwtFromRequest, JsVal.isString]
  · cases c <;> cases q <;> simp_all [jwtFromRequest, JsVal.isString]
  · cases c <;> cases q <;> simp_all [jwtFromRequest, JsVal.isString]

/-- C7 witness: the four precedence cases evaluated on concrete
requests. -/
theorem jwt_extractor_precedence_witness :
    jwtFromRequest ⟨JsVal.str "c", JsVal.str "r", JsVal.str "h"⟩ =
      some (JsVal.str "c") ∧
    jwtFromRequest ⟨JsVal.undef, JsVal.str "r", JsVal.str "h"⟩ =
      some (JsVal.str "r") ∧
    jwtFromRequest ⟨JsVal.nonStr true, JsVal.undef, JsVal.str "h"⟩ =
      some (JsVal.str "h") ∧
    jwtFromRequest ⟨JsVal.undef, JsVal.undef, JsVal.str ""⟩ = none :=
  ⟨(jwt_extractor_precedence ⟨JsVal.str "c", JsVal.str "r", JsVal.str "h"⟩).1
      "c" rfl,
   (jwt_extractor_precedence
      ⟨JsVal.undef, JsVal.str "r", JsVal.str "h"⟩).2.1 (by decide) "r" rfl,
   (jwt_extractor_precedence
      ⟨JsVal.nonStr true, JsVal.undef, JsVal.str "h"⟩).2.2.1 (by decide)
      (by decide) (by decide),
   (jwt_extractor_precedence
      ⟨JsVal.undef, JsVal.undef, JsVal.str ""⟩).2.2.2 (by decide) (by decide)
      (by decide)⟩

/-- Looking up the `user` header right after `headers.set` yields the value
just set. -/
theorem jsonLookup_setUserHeader (hs : List (String × Json)) (v : Json) :
    jsonLookup (setUserHeader hs v) "user" = some v := rfl

/-- Decoding a JSON array built from a list of strings recovers the
list. -/
theorem decodeStrList_map_str (rs : List String) :
    decodeStrList (Json.arr (rs.map Json.str)) = some rs := by
  induction rs with
  | nil => rfl
  | cons s t ih =>
    simp only [decodeStrList] at ih
    simp only [decodeStrList, List.map_cons, List.foldr_cons]
    rw [ih]
    rfl

/-- The JSON object the gateway builds from an identity decodes back to
exactly that identity. -/
theorem decode_encode_gqlUser (u : GqlUser) :
    decodeGqlUser (encodeGqlUser u) = some u := by
  obtain ⟨i, e, roles⟩ := u
  cases roles with
  | none => rfl
  | some rs =>
    show (decodeStrList (Json.arr (rs.map Json.str))).map
        (fun l => GqlUser.mk i e (some l)) = some ⟨i, e, some rs⟩
    rw [decodeStrList_map_str]
    rfl

/-- C8: forwarding is a lossless round trip — when the gateway has a
verified identity and an http request, the subgraph accessor reads back
precisely the JSON object the gateway serialized, and that object decodes
to the original identity; and the gateway leaves the headers untouched
whenever no identity is in its context (or no http request exists). -/
theorem gateway_identity_forwarding_roundtrip
    (u : GqlUser) (hs : List (String × Json)) (b : Bool) :
    getCurrentUserByContext
        (ExecCtx.graphql (willSendRequest true (some u) hs)) =
      CtxResult.parsedValue (encodeGqlUser u) ∧
    decodeGqlUser (encodeGqlUser u) = some u ∧
    willSendRequest b none hs = hs ∧
    willSendRequest false (some u) hs = hs := by
  refine ⟨?_, decode_encode_gqlUser u, ?_, rfl⟩
  · simp [getCurrentUserByContext, willSendRequest, jsonLookup_setUserHeader]
  · cases b <;> rfl

/-- C9 counterexample: on the HTTP entry point a request that never had an
identity attached makes the accessor return the absent `request.user`
value — a normal return, not the missing-identity failure — refuting the
claim that the accessor fails on both entry points. -/
theorem http_accessor_returns_undefined_without_identity :
    getCurrentUserByContext (ExecCtx.http none) = CtxResult.value none ∧
    CtxResult.value none ≠ CtxResult.errorUserNotFound :=
  ⟨rfl, fun h => nomatch h⟩

/-- C9 amended: only the GraphQL entry point fails with the
missing-identity condition when no identity header is present; the HTTP
entry point returns the `user` slot of the request as-is, with no check and
no failure. -/
theorem accessor_missing_identity_only_fails_on_graphql :
    (∀ hs : List (String × Json), jsonLookup hs "user" = none →
      getCurrentUserByContext (ExecCtx.graphql hs) =
        CtxResult.errorUserNotFound) ∧
    (∀ ou : Option GqlUser,
      getCurrentUserByContext (ExecCtx.http ou) = CtxResult.value ou) := by
  refine ⟨fun hs h => ?_, fun ou => rfl⟩
  simp [getCurrentUserByContext, h]

/-- C9 witness: the amended statement evaluated on an empty header map and
on an identity-less HTTP request. -/
theorem accessor_missing_identity_only_fails_on_graphql_witness :
    getCurrentUserByContext (ExecCtx.graphql []) =
      CtxResult.errorUserNotFound ∧
    getCurrentUserByContext (ExecCtx.http (some ⟨"1", "a@b.c", none⟩)) =
      CtxResult.value (some ⟨"1", "a@b.c", none⟩) :=
  ⟨accessor_missing_identity_only_fails_on_graphql.1 [] rfl,
   accessor_missing_identity_only_fails_on_graphql.2 (some ⟨"1", "a@b.c", none⟩)⟩

end Sleepr
